import Mathlib

/-! # ExtraSamplePlugin (samplefilter.h): the filter-invocation contract

The header `samplefilter.h` declares the plugin class `ExtraSamplePlugin`.
Two of its methods have their body in the header (`autoDialog`,
`postCondition`), and so does the enumeration of filter identifiers.  These
are embedded directly.  The bodies of `filterName`, `initParameterSet` and
`applyFilter` are not part of the header; they are modelled from the
specification and every such definition says so in its doc comment.
-/

namespace ExtraSamplePlugin

/-! ## Part 1: what the header itself defines -/

/-- The enumeration `enum { FP_MOVE_VERTEX }` of the class (it is anonymous in
the source). -/
inductive FilterID where
  | FP_MOVE_VERTEX
deriving DecidableEq, Repr

/-- Enumerators of the enumeration, in declaration order. -/
def FilterID.enumerators : List FilterID := [FilterID.FP_MOVE_VERTEX]

/-- Numeric value of an enumerator.  No enumerator of the source has an
initialiser, so the first one is 0 and each further one is its predecessor
plus one: the value is the position in declaration order. -/
def FilterID.val (e : FilterID) : Nat := FilterID.enumerators.indexOf e

/-- The host action type `QAction`, reduced to the text it carries.  A
`QAction *` argument is an `Option QAction`; `none` is the null pointer. -/
structure QAction where
  text : String
deriving DecidableEq, Repr

/-- The three `MeshModel::MM_*` flags that `postCondition` names.  Their
declaration lives in the host header `meshlab/meshmodel.h`, which is not among
the sources, so their numeric values are a parameter of the embedding.  They
are enumerators used as bit flags, hence natural numbers. -/
structure MeshModelFlags where
  MM_VERTCOORD : Nat
  MM_FACENORMAL : Nat
  MM_VERTNORMAL : Nat
deriving DecidableEq, Repr

/-- Source: `virtual bool autoDialog(QAction *) {return true;}`. -/
def autoDialog (_a : Option QAction) : Bool := true

/-- Source: `virtual int postCondition( QAction* ) const
{return MeshModel::MM_VERTCOORD | MeshModel::MM_FACENORMAL | MeshModel::MM_VERTNORMAL;}`.
The action parameter is unnamed in the source and never read. -/
def postCondition (MM : MeshModelFlags) (_a : Option QAction) : Nat :=
  MM.MM_VERTCOORD ||| MM.MM_FACENORMAL ||| MM.MM_VERTNORMAL

/-- Error taxonomy of the specification (section 7). -/
inductive FilterError where
  | UnknownOperation
  | InvalidParameter
  | IndexOutOfRange
  | OperationAborted
deriving DecidableEq, Repr

/-- What a caller of `postCondition` observes.  The method returns its `int`
by value and its body is a single `return` of a constant expression: there is
no failing exit, so every call completes with the mask. -/
def postConditionOutcome (MM : MeshModelFlags) (a : Option QAction) :
    Except FilterError Nat :=
  Except.ok (postCondition MM a)

/-- Modelled from the spec: the body of `filterName` is missing from the
sources (the header only declares it).  The specification calls the single
operation of the catalog "move vertex". -/
def filterName : FilterID → String
  | FilterID.FP_MOVE_VERTEX => "move vertex"

/-- Modelled from the spec: the lookup from an action to the identifier it
stands for belongs to the host interface `MeshFilterInterface`, which is
missing from the sources.  An action is registered when its text is the name
of an identifier of the catalog; the null action stands for no identifier. -/
def ID (a : Option QAction) : Option FilterID :=
  match a with
  | none => none
  | some q => FilterID.enumerators.find? (fun t => filterName t == q.text)

/-! ## Part 2: the execution contract, modelled from the specification

The scalar type of coordinates is a parameter `α`: the contract only adds an
offset to a position, so it is stated for every type with an addition. -/

/-- Modelled from the spec: a 3D position, normal or displacement (the vector
type of the host is missing from the sources). -/
structure Point3 (α : Type) where
  x : α
  y : α
  z : α
deriving DecidableEq, Repr

/-- Componentwise sum: a position plus an offset `(dx,dy,dz)`. -/
def Point3.add {α : Type} [Add α] (p q : Point3 α) : Point3 α :=
  ⟨p.x + q.x, p.y + q.y, p.z + q.z⟩

instance {α : Type} [Add α] : Add (Point3 α) := ⟨Point3.add⟩

/-- Modelled from the spec: a vertex of the mesh, "each with a 3D position and
a normal" (section 3). -/
structure Vertex (α : Type) where
  P : Point3 α
  N : Point3 α
deriving DecidableEq, Repr

/-- Modelled from the spec: a face of the mesh, "each with a normal and
vertex-index references into the vertex collection" (section 3). -/
structure Face (α : Type) where
  V : List Nat
  N : Point3 α
deriving DecidableEq, Repr

/-- Modelled from the spec: the mesh (the host class `MeshModel` is missing from
the sources): an ordered collection of vertices and an ordered collection of
faces.  The auxiliary derived attributes are left out, as in the spec. -/
structure MeshModel (α : Type) where
  vert : List (Vertex α)
  face : List (Face α)
deriving DecidableEq, Repr

/-- Modelled from the spec: a typed parameter value (section 3, "a mapping from
parameter name to typed value (e.g., a 3D displacement vector)"). -/
inductive ParamValue (α : Type) where
  | index (i : Int)
  | point3 (p : Point3 α)
  | scalar (v : α)
  | flag (b : Bool)
deriving DecidableEq, Repr

/-- Modelled from the spec: the parameter set (the host class
`FilterParameterSet` is missing from the sources), a mapping from parameter
name to typed value, kept as an association list. -/
abbrev FilterParameterSet (α : Type) := List (String × ParamValue α)

/-- Modelled from the spec: what the host answers to one progress report.
Cancellation "is modelled as the progress callback returning a stop signal"
(section 5). -/
inductive ProgressReply where
  | proceed
  | stop
deriving DecidableEq, Repr

/-- Modelled from the spec: the progress callback (the type `vcg::CallBackPos`
is missing from the sources).  It receives a percentage and answers whether
to go on.  A callback may keep state between its invocations, so its answer
may depend on the percentages it has received before: `cb earlier pos`. -/
abbrev CallBackPos := List Nat → Nat → ProgressReply

/-- Values received by the callback after one more report: a supplied callback
receives `pos`, an absent one (null pointer) receives nothing. -/
def report (cb : Option CallBackPos) (pos : Nat) (trace : List Nat) : List Nat :=
  match cb with
  | none => trace
  | some _ => trace ++ [pos]

/-- Whether the callback, given the report `pos` after the reports `trace`,
asks for the execution to stop.  An absent callback never does. -/
def stopRequested (cb : Option CallBackPos) (pos : Nat) (trace : List Nat) : Bool :=
  match cb with
  | none => false
  | some f => f trace pos == ProgressReply.stop

/-- A vertex displaced by an offset: the position moves, the normal stays. -/
def Vertex.displace {α : Type} [Add α] (v : Vertex α) (offset : Point3 α) : Vertex α :=
  { v with P := v.P + offset }

/-- Modelled from the spec: the pass that computes the full target state
(section 5: "compute full target state, then commit in one pass"; the stop
signal is checked "at a reasonable granularity", here once per vertex).  It
walks the vertices that remain, `k` being the index of the first of them and
`n` the size of the whole collection; before each vertex it reports the
percentage `100 * k / n` and gives up when the callback answers stop.  The
result is the new vertex collection (`none` when stopped) and the values the
callback has received. -/
def moveLoop {α : Type} [Add α] (cb : Option CallBackPos) (n target : Nat)
    (offset : Point3 α) : List (Vertex α) → Nat → List Nat →
    Option (List (Vertex α)) × List Nat
  | [], _, trace => (some [], trace)
  | v :: vs, k, trace =>
    if stopRequested cb (100 * k / n) trace then
      (none, report cb (100 * k / n) trace)
    else
      match moveLoop cb n target offset vs (k + 1) (report cb (100 * k / n) trace) with
      | (none, trace2) => (none, trace2)
      | (some out, trace2) =>
        (some ((if k = target then v.displace offset else v) :: out), trace2)

/-- Everything observable of one call of `applyFilter`: the returned result,
the mesh as the call leaves it, and the percentages the callback received, in
order. -/
structure FilterRun (α : Type) where
  result : Except FilterError Unit
  mesh : MeshModel α
  progress : List Nat

/-- Modelled from the spec: the body of `applyFilter` is missing from the
sources (the header only declares it).  This is `execute` of section 4.1 for
"move vertex" with the parameters `target` and `offset` (section 8).  The
checks come in the order of the preconditions of section 4.1 and all of them
precede the first write (validate-before-mutate): an unregistered action is
`UnknownOperation`; a required parameter that is absent or of the wrong type is
`InvalidParameter`, with no default put in its place; a target that is not an
index of the vertex collection is `IndexOutOfRange`; a stop signal from the
callback is `OperationAborted`.  On every failure the mesh is returned as it
was.  On success the new vertex collection is committed, the faces are kept,
and the callback, if supplied, receives 100 last. -/
def applyFilter {α : Type} [Add α] (filter : Option QAction) (m : MeshModel α)
    (par : FilterParameterSet α) (cb : Option CallBackPos) : FilterRun α :=
  match ID filter with
  | none => ⟨Except.error FilterError.UnknownOperation, m, []⟩
  | some FilterID.FP_MOVE_VERTEX =>
    match par.lookup "target", par.lookup "offset" with
    | some (ParamValue.index i), some (ParamValue.point3 d) =>
      if 0 ≤ i ∧ i < (m.vert.length : Int) then
        match moveLoop cb m.vert.length i.toNat d m.vert 0 [] with
        | (none, trace) => ⟨Except.error FilterError.OperationAborted, m, trace⟩
        | (some vs, trace) => ⟨Except.ok (), { m with vert := vs }, report cb 100 trace⟩
      else ⟨Except.error FilterError.IndexOutOfRange, m, []⟩
    | _, _ => ⟨Except.error FilterError.InvalidParameter, m, []⟩

/-- The action the plugin registers for the "move vertex" filter. -/
def moveVertexAction : Option QAction := some ⟨filterName FilterID.FP_MOVE_VERTEX⟩

/-- A callback that records nothing of its own and never asks to stop. -/
def neverStop : CallBackPos := fun _ _ => ProgressReply.proceed

/-- A small mesh over the integers: a triangle with one face. -/
def triangle : MeshModel Int :=
  { vert := [⟨⟨0, 0, 0⟩, ⟨0, 0, 1⟩⟩, ⟨⟨1, 0, 0⟩, ⟨0, 0, 1⟩⟩, ⟨⟨0, 1, 0⟩, ⟨0, 0, 1⟩⟩],
    face := [⟨[0, 1, 2], ⟨0, 0, 1⟩⟩] }

/-- A well-formed parameter set: move vertex 1 by `(5, -2, 3)`. -/
def moveOne : FilterParameterSet Int :=
  [("target", ParamValue.index 1), ("offset", ParamValue.point3 ⟨5, -2, 3⟩)]

/-- Percentages a supplied callback receives while `len` vertices starting at
index `k` are walked, out of `n` vertices; nothing without a callback. -/
def received (cb : Option CallBackPos) (n k len : Nat) : List Nat :=
  match cb with
  | none => []
  | some _ => (List.range' k len).map (fun j => 100 * j / n)

/-- A parameter set that lacks the required parameter `offset`. -/
def targetOnly : FilterParameterSet Int := [("target", ParamValue.index 1)]

/-- A parameter set whose target, 7, is not an index of `triangle`. -/
def moveSeventh : FilterParameterSet Int :=
  [("target", ParamValue.index 7), ("offset", ParamValue.point3 ⟨5, -2, 3⟩)]

/-- An action that the plugin never registered. -/
def foreignAction : Option QAction := some ⟨"smooth"⟩

/-- Sample values for the three flags, one bit each. -/
def sampleFlags : MeshModelFlags := ⟨1, 2, 4⟩

/-! ## Lemmas on the model of `applyFilter` -/

theorem received_cons (cb : Option CallBackPos) (n k len : Nat) :
    received cb n k (len + 1) = report cb (100 * k / n) [] ++ received cb n (k + 1) len := by
  cases cb <;> simp [report, received, List.range'_succ]

theorem report_append (cb : Option CallBackPos) (pos : Nat) (trace : List Nat) :
    report cb pos trace = trace ++ report cb pos [] := by
  cases cb <;> simp [report]

theorem moveLoop_some {α : Type} [Add α] (cb : Option CallBackPos) (n target : Nat)
    (d : Point3 α) (vs : List (Vertex α)) :
    ∀ (k : Nat) (trace : List Nat) (out : List (Vertex α)) (trace2 : List Nat),
      moveLoop cb n target d vs k trace = (some out, trace2) →
      out.length = vs.length ∧
      (∀ j, out[j]? = (vs[j]?).map (fun v => if k + j = target then v.displace d else v)) ∧
      trace2 = trace ++ received cb n k vs.length := by
  induction vs with
  | nil =>
    intro k trace out trace2 h
    simp only [moveLoop, Prod.mk.injEq, Option.some.injEq] at h
    obtain ⟨rfl, rfl⟩ := h
    cases cb <;> simp [received]
  | cons v vs ih =>
    intro k trace out trace2 h
    rw [moveLoop] at h
    split at h
    · simp at h
    · rcases hrec : moveLoop cb n target d vs (k + 1) (report cb (100 * k / n) trace) with ⟨_ | out1, tr1⟩
      · rw [hrec] at h; simp at h
      · rw [hrec] at h
        simp only [Prod.mk.injEq, Option.some.injEq] at h
        obtain ⟨rfl, rfl⟩ := h
        obtain ⟨hlen, hget, htr⟩ := ih (k + 1) _ out1 tr1 hrec
        refine ⟨by simp [hlen], ?_, ?_⟩
        · intro j
          cases j with
          | zero => simp
          | succ j =>
            simp only [List.getElem?_cons_succ, hget j]
            have : k + 1 + j = k + (j + 1) := by omega
            rw [this]
        · rw [htr, List.length_cons, received_cons, report_append cb _ trace, List.append_assoc]

theorem moveLoop_never_stopped {α : Type} [Add α] (cb : Option CallBackPos) (n target : Nat)
    (d : Point3 α) (hcb : ∀ pos trace, stopRequested cb pos trace = false)
    (vs : List (Vertex α)) :
    ∀ (k : Nat) (trace : List Nat), ∃ out trace2,
      moveLoop cb n target d vs k trace = (some out, trace2) := by
  induction vs with
  | nil => intro k trace; exact ⟨[], trace, rfl⟩
  | cons v vs ih =>
    intro k trace
    obtain ⟨out, trace2, h⟩ := ih (k + 1) (report cb (100 * k / n) trace)
    refine ⟨(if k = target then v.displace d else v) :: out, trace2, ?_⟩
    rw [moveLoop, hcb, h]
    simp


theorem applyFilter_ok_inv {α : Type} [Add α] (filter : Option QAction) (m : MeshModel α)
    (par : FilterParameterSet α) (cb : Option CallBackPos)
    (h : (applyFilter filter m par cb).result = Except.ok ()) :
    ∃ i d out trace,
      ID filter = some FilterID.FP_MOVE_VERTEX ∧
      par.lookup "target" = some (ParamValue.index i) ∧
      par.lookup "offset" = some (ParamValue.point3 d) ∧
      (0 ≤ i ∧ i < (m.vert.length : Int)) ∧
      moveLoop cb m.vert.length i.toNat d m.vert 0 [] = (some out, trace) ∧
      applyFilter filter m par cb = ⟨Except.ok (), { m with vert := out }, report cb 100 trace⟩ := by
  unfold applyFilter at h ⊢
  split at h
  · simp at h
  · rename_i hid
    split at h
    · rename_i i d ht ho
      split at h
      · rename_i hi
        rcases hrec : moveLoop cb m.vert.length i.toNat d m.vert 0 [] with ⟨_ | out, tr⟩
        · rw [hrec] at h; simp at h
        · refine ⟨i, d, out, tr, hid, ht, ho, hi, hrec, ?_⟩
          simp [hid, ht, ho, hi, hrec]
      · simp at h
    · simp at h


theorem received_pairwise (cb : Option CallBackPos) (n k len : Nat) :
    (received cb n k len).Pairwise (fun a b => a ≤ b) := by
  cases cb with
  | none => simp [received]
  | some f =>
    simp only [received, List.pairwise_map]
    exact (List.pairwise_lt_range' k len).imp
      (fun {a b} hab => Nat.div_le_div_right (Nat.mul_le_mul_left 100 (Nat.le_of_lt hab)))

theorem received_le (cb : Option CallBackPos) (n len : Nat) (hlen : len ≤ n) :
    ∀ a ∈ received cb n 0 len, a ≤ 100 := by
  cases cb with
  | none => simp [received]
  | some f =>
    intro a ha
    simp only [received, List.mem_map, List.mem_range'_1] at ha
    obtain ⟨j, ⟨_, hj⟩, rfl⟩ := ha
    apply Nat.div_le_of_le_mul
    have : j ≤ n := by omega
    calc 100 * j ≤ 100 * n := Nat.mul_le_mul_left 100 this
      _ = n * 100 := Nat.mul_comm 100 n

/-- The run succeeds whenever the action is the registered one, both
parameters are present with the right type, the target is an index of the
vertex collection and the callback never asks to stop (in particular when no
callback is supplied). -/
theorem applyFilter_succeeds {α : Type} [Add α] (filter : Option QAction) (m : MeshModel α)
    (par : FilterParameterSet α) (cb : Option CallBackPos) (i : Int) (d : Point3 α)
    (hid : ID filter = some FilterID.FP_MOVE_VERTEX)
    (htarget : par.lookup "target" = some (ParamValue.index i))
    (hoffset : par.lookup "offset" = some (ParamValue.point3 d))
    (hi : 0 ≤ i ∧ i < (m.vert.length : Int))
    (hcb : ∀ pos trace, stopRequested cb pos trace = false) :
    (applyFilter filter m par cb).result = Except.ok () := by
  obtain ⟨out, trace2, h⟩ :=
    moveLoop_never_stopped cb m.vert.length i.toNat d hcb m.vert 0 []
  unfold applyFilter
  simp [hid, htarget, hoffset, hi, h]

/-! ## The claims settled on the header -/

/-- C1: the invalidation mask is static.  Any two invocations of
`postCondition`, with any two actions, return the same value; the method has no
mesh and no parameter-set input at all, so the value cannot depend on them. -/
theorem postCondition_static (MM : MeshModelFlags) (a b : Option QAction) :
    postCondition MM a = postCondition MM b := rfl

/-- C2: the mask of `postCondition` contains each of the three flags
`MM_VERTCOORD`, `MM_FACENORMAL`, `MM_VERTNORMAL`, and it has no bit in common
with any flag that shares no bit with those three. -/
theorem postCondition_flags_exactly_three (MM : MeshModelFlags) (a : Option QAction) :
    postCondition MM a &&& MM.MM_VERTCOORD = MM.MM_VERTCOORD ∧
    postCondition MM a &&& MM.MM_FACENORMAL = MM.MM_FACENORMAL ∧
    postCondition MM a &&& MM.MM_VERTNORMAL = MM.MM_VERTNORMAL ∧
    ∀ f : Nat, f &&& MM.MM_VERTCOORD = 0 → f &&& MM.MM_FACENORMAL = 0 →
      f &&& MM.MM_VERTNORMAL = 0 → postCondition MM a &&& f = 0 := by
  refine ⟨?_, ?_, ?_, ?_⟩
  · apply Nat.eq_of_testBit_eq; intro i
    simp only [postCondition, Nat.testBit_land, Nat.testBit_lor]
    cases MM.MM_VERTCOORD.testBit i <;> simp
  · apply Nat.eq_of_testBit_eq; intro i
    simp only [postCondition, Nat.testBit_land, Nat.testBit_lor]
    cases MM.MM_FACENORMAL.testBit i <;> simp
  · apply Nat.eq_of_testBit_eq; intro i
    simp only [postCondition, Nat.testBit_land, Nat.testBit_lor]
    cases MM.MM_VERTNORMAL.testBit i <;> simp
  · intro f h1 h2 h3
    rw [postCondition, Nat.land_comm, Nat.and_or_distrib_left, Nat.and_or_distrib_left,
      h1, h2, h3]
    rfl

/-- C2, at the sample flags 1, 2, 4 and the disjoint flag 8. -/
theorem postCondition_flags_exactly_three_witness :
    postCondition sampleFlags moveVertexAction &&& 1 = 1 ∧
    postCondition sampleFlags moveVertexAction &&& 2 = 2 ∧
    postCondition sampleFlags moveVertexAction &&& 4 = 4 ∧
    postCondition sampleFlags moveVertexAction &&& 8 = 0 :=
  have h := postCondition_flags_exactly_three sampleFlags moveVertexAction
  ⟨h.1, h.2.1, h.2.2.1, h.2.2.2 8 (by decide) (by decide) (by decide)⟩

/-- C3 as stated fails: for the unregistered action "smooth" and for the null
action, `postCondition` completes with the mask (7 at the sample flags) and
not with `UnknownOperation`. -/
theorem postCondition_unregistered_counterexample :
    ID foreignAction = none ∧
    postConditionOutcome sampleFlags foreignAction = Except.ok 7 ∧
    postConditionOutcome sampleFlags foreignAction ≠
      Except.error FilterError.UnknownOperation ∧
    ID none = none ∧
    postConditionOutcome sampleFlags none ≠ Except.error FilterError.UnknownOperation := by
  refine ⟨by decide, rfl, ?_, rfl, ?_⟩ <;> intro h <;> cases h

/-- C3 amended: for an action that is not registered, `postCondition` does not
fail; it returns the same mask as for the registered "move vertex" action. -/
theorem postCondition_unregistered_returns_mask (MM : MeshModelFlags) (a : Option QAction)
    (_h : ID a = none) :
    postConditionOutcome MM a = Except.ok (postCondition MM moveVertexAction) := rfl

/-- C3 amended, at the unregistered action "smooth". -/
theorem postCondition_unregistered_returns_mask_witness :
    ID foreignAction = none ∧
    postConditionOutcome sampleFlags foreignAction =
      Except.ok (postCondition sampleFlags moveVertexAction) :=
  ⟨by decide, postCondition_unregistered_returns_mask sampleFlags foreignAction (by decide)⟩

/-- C9: the enumeration of filter identifiers has exactly one member,
`FP_MOVE_VERTEX`; it lists no identifier twice, any two identifiers are equal,
and `FP_MOVE_VERTEX` has the numeric value 0. -/
theorem filterID_single_member :
    FilterID.enumerators = [FilterID.FP_MOVE_VERTEX] ∧
    FilterID.enumerators.length = 1 ∧
    FilterID.enumerators.Nodup ∧
    (∀ e : FilterID, e ∈ FilterID.enumerators) ∧
    (∀ a b : FilterID, a = b) ∧
    FilterID.val FilterID.FP_MOVE_VERTEX = 0 := by
  refine ⟨rfl, rfl, by decide, ?_, ?_, by decide⟩
  · intro e; cases e; decide
  · intro a b; cases a; cases b; rfl

/-- C10: `autoDialog` returns true for every action argument, the null action
included, so its answer is the same for any two actions. -/
theorem autoDialog_always_true :
    (∀ a : Option QAction, autoDialog a = true) ∧
    autoDialog none = true ∧
    (∀ a b : Option QAction, autoDialog a = autoDialog b) :=
  ⟨fun _ => rfl, rfl, fun _ _ => rfl⟩

/-! ## The claims settled on the model of `applyFilter` -/

/-- C4: a successful "move vertex" run with target `i`, present in the mesh,
and offset `d` leaves vertex `i` at its original position plus `d`, leaves the
position of every other vertex as it was, and leaves the faces as they were. -/
theorem applyFilter_moves_target {α : Type} [Add α] (filter : Option QAction)
    (m : MeshModel α) (par : FilterParameterSet α) (cb : Option CallBackPos)
    (i : Int) (d : Point3 α)
    (htarget : par.lookup "target" = some (ParamValue.index i))
    (hoffset : par.lookup "offset" = some (ParamValue.point3 d))
    (hi : 0 ≤ i ∧ i < (m.vert.length : Int))
    (hok : (applyFilter filter m par cb).result = Except.ok ()) :
    (∃ v, m.vert[i.toNat]? = some v ∧
      ((applyFilter filter m par cb).mesh.vert[i.toNat]?).map Vertex.P = some (v.P + d)) ∧
    (∀ k : Nat, k ≠ i.toNat →
      ((applyFilter filter m par cb).mesh.vert[k]?).map Vertex.P =
        (m.vert[k]?).map Vertex.P) ∧
    (applyFilter filter m par cb).mesh.face = m.face := by
  obtain ⟨i1, d1, out, trace, _, ht, ho, _, hloop, hrun⟩ :=
    applyFilter_ok_inv filter m par cb hok
  rw [htarget] at ht
  rw [hoffset] at ho
  simp only [Option.some.injEq, ParamValue.index.injEq, ParamValue.point3.injEq] at ht ho
  subst ht ho
  obtain ⟨_, hget, _⟩ := moveLoop_some cb _ _ d m.vert 0 [] out trace hloop
  rw [hrun]
  refine ⟨?_, ?_, rfl⟩
  · have hlt : i.toNat < m.vert.length := by omega
    refine ⟨m.vert[i.toNat], List.getElem?_eq_getElem hlt, ?_⟩
    simp [hget, List.getElem?_eq_getElem hlt, Vertex.displace]
  · intro k hk
    have hk2 : ¬ (k = i.toNat) := hk
    simp only [hget, Nat.zero_add, hk2, if_false, Option.map_map]
    cases m.vert[k]? <;> rfl

/-- C4, on the triangle: vertex 1 moves from `(1,0,0)` by `(5,-2,3)`. -/
theorem applyFilter_moves_target_witness :
    (applyFilter moveVertexAction triangle moveOne (some neverStop)).result = Except.ok () ∧
    ((∃ v, triangle.vert[1]? = some v ∧
      ((applyFilter moveVertexAction triangle moveOne (some neverStop)).mesh.vert[1]?).map
        Vertex.P = some (v.P + ⟨5, -2, 3⟩)) ∧
    (∀ k : Nat, k ≠ 1 →
      ((applyFilter moveVertexAction triangle moveOne (some neverStop)).mesh.vert[k]?).map
        Vertex.P = (triangle.vert[k]?).map Vertex.P) ∧
    (applyFilter moveVertexAction triangle moveOne (some neverStop)).mesh.face =
      triangle.face) :=
  ⟨rfl, applyFilter_moves_target moveVertexAction triangle moveOne (some neverStop) 1
    ⟨5, -2, 3⟩ rfl rfl (by decide) rfl⟩

/-- C5: a "move vertex" run whose target is not an index of the vertex
collection fails with `IndexOutOfRange` and returns the mesh as it was. -/
theorem applyFilter_index_out_of_range {α : Type} [Add α] (filter : Option QAction)
    (m : MeshModel α) (par : FilterParameterSet α) (cb : Option CallBackPos)
    (i : Int) (d : Point3 α)
    (hid : ID filter = some FilterID.FP_MOVE_VERTEX)
    (htarget : par.lookup "target" = some (ParamValue.index i))
    (hoffset : par.lookup "offset" = some (ParamValue.point3 d))
    (hout : ¬ (0 ≤ i ∧ i < (m.vert.length : Int))) :
    (applyFilter filter m par cb).result = Except.error FilterError.IndexOutOfRange ∧
    (applyFilter filter m par cb).mesh = m := by
  unfold applyFilter
  simp only [hid, htarget, hoffset, hout, if_false, and_self]

/-- C5, on the triangle with target 7. -/
theorem applyFilter_index_out_of_range_witness :
    (applyFilter moveVertexAction triangle moveSeventh (some neverStop)).result =
      Except.error FilterError.IndexOutOfRange ∧
    (applyFilter moveVertexAction triangle moveSeventh (some neverStop)).mesh = triangle :=
  applyFilter_index_out_of_range moveVertexAction triangle moveSeventh (some neverStop) 7
    ⟨5, -2, 3⟩ (by decide) rfl rfl (by decide)

/-- C6: a "move vertex" run on a parameter set that lacks `target` or lacks
`offset` fails with `InvalidParameter`, puts no default in its place, and
returns the mesh as it was. -/
theorem applyFilter_missing_parameter {α : Type} [Add α] (filter : Option QAction)
    (m : MeshModel α) (par : FilterParameterSet α) (cb : Option CallBackPos)
    (hid : ID filter = some FilterID.FP_MOVE_VERTEX)
    (hmiss : par.lookup "target" = none ∨ par.lookup "offset" = none) :
    (applyFilter filter m par cb).result = Except.error FilterError.InvalidParameter ∧
    (applyFilter filter m par cb).mesh = m := by
  unfold applyFilter
  simp only [hid]
  rcases hmiss with h | h
  · simp [h]
  · split
    · rename_i ho; rw [h] at ho; cases ho
    · simp

/-- C6, on the triangle with a parameter set that has no `offset`. -/
theorem applyFilter_missing_parameter_witness :
    (applyFilter moveVertexAction triangle targetOnly none).result =
      Except.error FilterError.InvalidParameter ∧
    (applyFilter moveVertexAction triangle targetOnly none).mesh = triangle :=
  applyFilter_missing_parameter moveVertexAction triangle targetOnly none (by decide)
    (Or.inr rfl)

/-- C7: a successful run neither resizes nor reorders the collections: the
vertex collection keeps its length, the face collection is the same list, and
every index holds the vertex it held before, untouched or displaced. -/
theorem applyFilter_keeps_collections {α : Type} [Add α] (filter : Option QAction)
    (m : MeshModel α) (par : FilterParameterSet α) (cb : Option CallBackPos)
    (hok : (applyFilter filter m par cb).result = Except.ok ()) :
    (applyFilter filter m par cb).mesh.vert.length = m.vert.length ∧
    (applyFilter filter m par cb).mesh.face.length = m.face.length ∧
    (applyFilter filter m par cb).mesh.face = m.face ∧
    (∀ k : Nat, (applyFilter filter m par cb).mesh.vert[k]? = m.vert[k]? ∨
      ∃ d, (applyFilter filter m par cb).mesh.vert[k]? =
        (m.vert[k]?).map (fun v => v.displace d)) := by
  obtain ⟨i, d, out, trace, _, _, _, _, hloop, hrun⟩ :=
    applyFilter_ok_inv filter m par cb hok
  obtain ⟨hlen, hget, _⟩ := moveLoop_some cb _ _ d m.vert 0 [] out trace hloop
  rw [hrun]
  refine ⟨hlen, rfl, rfl, ?_⟩
  intro k
  by_cases hk : k = i.toNat
  · right
    refine ⟨d, ?_⟩
    simp [hget, hk]
  · left
    simp only [hget, Nat.zero_add, hk, if_false]
    cases m.vert[k]? <;> rfl

/-- C7, on the triangle, run without a callback. -/
theorem applyFilter_keeps_collections_witness :
    (applyFilter moveVertexAction triangle moveOne none).result = Except.ok () ∧
    (applyFilter moveVertexAction triangle moveOne none).mesh.vert.length = 3 ∧
    (applyFilter moveVertexAction triangle moveOne none).mesh.face.length = 1 ∧
    (applyFilter moveVertexAction triangle moveOne none).mesh.face = triangle.face ∧
    (∀ k : Nat, (applyFilter moveVertexAction triangle moveOne none).mesh.vert[k]? =
        triangle.vert[k]? ∨
      ∃ d, (applyFilter moveVertexAction triangle moveOne none).mesh.vert[k]? =
        (triangle.vert[k]?).map (fun v => v.displace d)) :=
  ⟨rfl, applyFilter_keeps_collections moveVertexAction triangle moveOne none rfl⟩

/-- C8: on a successful run the percentages the callback received never
decrease, the last one (when there is one) is 100, and a supplied callback
does receive a last value. -/
theorem applyFilter_progress_nondecreasing_ends_100 {α : Type} [Add α]
    (filter : Option QAction) (m : MeshModel α) (par : FilterParameterSet α)
    (cb : Option CallBackPos)
    (hok : (applyFilter filter m par cb).result = Except.ok ()) :
    (applyFilter filter m par cb).progress.Pairwise (fun a b => a ≤ b) ∧
    (∀ last, (applyFilter filter m par cb).progress.getLast? = some last → last = 100) ∧
    (cb.isSome = true → (applyFilter filter m par cb).progress.getLast? = some 100) := by
  obtain ⟨i, d, out, trace, _, _, _, _, hloop, hrun⟩ := applyFilter_ok_inv filter m par cb hok
  obtain ⟨_, _, htr⟩ := moveLoop_some cb _ _ d m.vert 0 [] out trace hloop
  rw [hrun]
  simp only [List.nil_append] at htr
  subst htr
  have hpw := received_pairwise cb m.vert.length 0 m.vert.length
  have hle := received_le cb m.vert.length m.vert.length (Nat.le_refl _)
  cases cb with
  | none => simp [report, received]
  | some f =>
    simp only [report]
    refine ⟨?_, ?_, ?_⟩
    · rw [List.pairwise_append]
      refine ⟨hpw, List.pairwise_singleton _ _, ?_⟩
      intro a ha b hb
      simp only [List.mem_singleton] at hb
      subst hb
      exact hle a ha
    · intro last hlast
      simp at hlast
      exact hlast.symm
    · intro _
      simp

/-- C8, on the triangle: the callback receives 0, 33, 66, 100. -/
theorem applyFilter_progress_nondecreasing_ends_100_witness :
    (applyFilter moveVertexAction triangle moveOne (some neverStop)).progress =
      [0, 33, 66, 100] ∧
    ((applyFilter moveVertexAction triangle moveOne (some neverStop)).progress.Pairwise
      (fun a b => a ≤ b) ∧
    (∀ last, (applyFilter moveVertexAction triangle moveOne (some neverStop)).progress.getLast?
      = some last → last = 100) ∧
    ((some neverStop).isSome = true →
      (applyFilter moveVertexAction triangle moveOne (some neverStop)).progress.getLast?
        = some 100)) :=
  ⟨by decide, applyFilter_progress_nondecreasing_ends_100 moveVertexAction triangle moveOne
    (some neverStop) rfl⟩

end ExtraSamplePlugin
